import Mathlib

/-!
Verification development for the playtime movie-cache program
(`playtime.py`).  The Python source is shallowly embedded below:

* Python `dict`s (the cache's `directories` and `movies` members, and JSON
  objects) are modelled as association lists with the usual dict
  operations `dlookup` / `dinsert` / `derase`; Python preserves insertion
  order and keeps keys unique, which the lemmas assume via `List.Nodup`
  hypotheses where it matters.
* `pathlib.Path` values are modelled as plain strings (the program builds
  paths by `/`-joining, which is modelled by string concatenation).
* Exceptions are modelled with `Except PyError`.
* The external collaborators (IMDB metadata provider, the PTN filename
  parser, the filesystem, interactive input) are modelled by an explicit
  environment `Env` of oracle functions; provider (network) traffic is
  made observable as a list of `PCall` values returned next to each
  result.
-/

/-- Python exception kinds that the embedded code can raise. -/
inductive PyError where
  | keyError
  | typeError
  | attributeError
  | zeroDivisionError
deriving DecidableEq, Repr

/-- A dynamically typed Python attribute value, as far as
`Movie.get_category` needs to distinguish them (`isinstance(value, list)`
versus everything else, which is passed through `str`). -/
inductive PyVal where
  | str (s : String)
  | int (n : Int)
  | pynone
  | list (xs : List String)
deriving DecidableEq, Repr

/-- Python `str()` of the scalar values stored in Movie attributes. -/
def PyVal.toStr : PyVal → String
  | .str s => s
  | .int n => toString n
  | .pynone => "None"
  | .list xs => toString xs

/-- `playtime.Movie`: dataclass with one field per line of the source
(`imdb_id` … `actors`).  `directors`/`actors` default to `None`. -/
structure Movie where
  imdb_id : String
  title : String
  primary_image : String
  year : Int
  language_codes : List String
  genres : List String
  rating : String
  vote_count : Int
  runtime : Int
  top_ranking : Option Int
  bottom_ranking : Option Int
  data_epoch : Int
  directors : Option (List String) := none
  actors : Option (List String) := none
deriving DecidableEq, Repr

/-- `playtime.Cache`: the aggregate of directory mappings
(`directories : dict[Path, str]`) and movie records
(`movies : dict[str, Movie]`), in insertion order. -/
structure Cache where
  directories : List (String × String)
  movies : List (String × Movie)
deriving DecidableEq, Repr

/-- Python dict lookup `d.get(k)` / `k in d` on an association list. -/
def dlookup {α β : Type} [DecidableEq α] (k : α) : List (α × β) → Option β
  | [] => none
  | e :: rest => if e.1 = k then some e.2 else dlookup k rest

/-- Python dict assignment `d[k] = v`: replace the value at an existing
key in place, otherwise append the new pair at the end. -/
def dinsert {α β : Type} [DecidableEq α] (k : α) (v : β) : List (α × β) → List (α × β)
  | [] => [(k, v)]
  | e :: rest => if e.1 = k then (k, v) :: rest else e :: dinsert k v rest

/-- Python dict deletion `del d[k]` (dict keys are unique, so removing
every pair with the key is the same operation). -/
def derase {α β : Type} [DecidableEq α] (k : α) (l : List (α × β)) : List (α × β) :=
  l.filter (fun e => e.1 ≠ k)

/-- `d.values()` of an association list. -/
def dvalues {α β : Type} (l : List (α × β)) : List β :=
  l.map Prod.snd

/-- `Playtime.clean_cache` (playtime.py lines 518-549): first collect the
cached directories that no longer exist on the filesystem
(`fsExists` models `Path.exists`), then collect the movie ids not
referenced by any directory mapping — the membership test
`imdb_id not in self.cache.directories.values()` runs against the still
unmodified `directories` dict — and finally delete both collections. -/
def clean_cache (fsExists : String → Bool) (c : Cache) : Cache :=
  let removed_directories := (c.directories.map Prod.fst).filter (fun d => !(fsExists d))
  let removed_movies :=
    (c.movies.map Prod.fst).filter (fun imdb_id => !((dvalues c.directories).contains imdb_id))
  let dirs := removed_directories.foldl (fun acc d => derase d acc) c.directories
  let movs := removed_movies.foldl (fun acc imdb_id => derase imdb_id acc) c.movies
  { directories := dirs, movies := movs }

/-! ### JSON-level model of the cache file (`read_cache_file` / `write_cache_file`)

`json.dumps`/`json.loads` (the external `json` library) are mutually
inverse between JSON documents and the value trees below, so the
serialized cache file is modelled at the tree level.  A file whose text
does not parse is a `CacheFile.invalid`. -/

/-- A parsed JSON document, as produced by `json.loads`. -/
inductive Json where
  | str (s : String)
  | num (n : Int)
  | null
  | arr (xs : List Json)
  | obj (kvs : List (String × Json))

/-- Lookup in a parsed JSON object, i.e. Python `cache[k]` on the result
of `json.loads`: `KeyError` when the key is missing, `TypeError` when the
value is not a dict at all. -/
def jsonDictGet (j : Json) (k : String) : Except PyError Json :=
  match j with
  | .obj kvs =>
    match dlookup k kvs with
    | some v => .ok v
    | none => .error .keyError
  | _ => .error .typeError

/-- `asdict(movie)` followed by `json.dumps`: the JSON object written for
one movie, fields in dataclass declaration order. -/
def movieToJson (m : Movie) : Json :=
  .obj
    [("imdb_id", .str m.imdb_id),
     ("title", .str m.title),
     ("primary_image", .str m.primary_image),
     ("year", .num m.year),
     ("language_codes", .arr (m.language_codes.map .str)),
     ("genres", .arr (m.genres.map .str)),
     ("rating", .str m.rating),
     ("vote_count", .num m.vote_count),
     ("runtime", .num m.runtime),
     ("top_ranking", match m.top_ranking with | some n => .num n | none => .null),
     ("bottom_ranking", match m.bottom_ranking with | some n => .num n | none => .null),
     ("data_epoch", .num m.data_epoch),
     ("directors", match m.directors with | some xs => .arr (xs.map .str) | none => .null),
     ("actors", match m.actors with | some xs => .arr (xs.map .str) | none => .null)]

/-- The JSON document written by `Cache.write_cache_file`
(playtime.py lines 111-130): the dict
`{"directories": {str(path): id}, "movies": {id: asdict(movie)}}`. -/
def cache_write_json (c : Cache) : Json :=
  .obj
    [("directories", .obj (c.directories.map (fun e => (e.1, .str e.2)))),
     ("movies", .obj (c.movies.map (fun e => (e.1, movieToJson e.2))))]

/-- The dataclass field names accepted by `Movie(**values)`. -/
def movieFieldNames : List String :=
  ["imdb_id", "title", "primary_image", "year", "language_codes", "genres",
   "rating", "vote_count", "runtime", "top_ranking", "bottom_ranking",
   "data_epoch", "directors", "actors"]

def jsonAsStr : Json → Option String
  | .str s => some s
  | _ => none

def jsonAsInt : Json → Option Int
  | .num n => some n
  | _ => none

/-- An `int | None` field (`top_ranking`, `bottom_ranking`). -/
def jsonAsOptInt : Json → Option (Option Int)
  | .num n => some (some n)
  | .null => some none
  | _ => none

def jsonAsStrListAux : List Json → Option (List String)
  | [] => some []
  | j :: rest =>
    match j with
    | .str s => (jsonAsStrListAux rest).map (fun l => s :: l)
    | _ => none

def jsonAsStrList : Json → Option (List String)
  | .arr xs => jsonAsStrListAux xs
  | _ => none

/-- A `list[str] | None` field (`directors`, `actors`). -/
def jsonAsOptStrList : Json → Option (Option (List String))
  | .null => some none
  | .arr xs => (jsonAsStrListAux xs).map some
  | _ => none

/-- `Movie(**values)` on a stored movie object: every key must be a
dataclass field (an unexpected keyword raises `TypeError`), the fields
without defaults must be present, and `directors`/`actors` default to
`None` when absent.  (The Python dataclass performs no runtime type
check; the model restricts stored values to the declared field types,
which covers everything `write_cache_file` can produce.) -/
def movieFromJson (j : Json) : Option Movie :=
  match j with
  | .obj kvs =>
    if (kvs.map Prod.fst).all (fun k => movieFieldNames.contains k) then do
      let imdb_id ← dlookup ("imdb_id") kvs >>= jsonAsStr
      let title ← dlookup ("title") kvs >>= jsonAsStr
      let primary_image ← dlookup ("primary_image") kvs >>= jsonAsStr
      let year ← dlookup ("year") kvs >>= jsonAsInt
      let language_codes ← dlookup ("language_codes") kvs >>= jsonAsStrList
      let genres ← dlookup ("genres") kvs >>= jsonAsStrList
      let rating ← dlookup ("rating") kvs >>= jsonAsStr
      let vote_count ← dlookup ("vote_count") kvs >>= jsonAsInt
      let runtime ← dlookup ("runtime") kvs >>= jsonAsInt
      let top_ranking ← dlookup ("top_ranking") kvs >>= jsonAsOptInt
      let bottom_ranking ← dlookup ("bottom_ranking") kvs >>= jsonAsOptInt
      let data_epoch ← dlookup ("data_epoch") kvs >>= jsonAsInt
      let directors ←
        match dlookup ("directors") kvs with
        | some v => jsonAsOptStrList v
        | none => some none
      let actors ←
        match dlookup ("actors") kvs with
        | some v => jsonAsOptStrList v
        | none => some none
      some
        { imdb_id, title, primary_image, year, language_codes, genres, rating,
          vote_count, runtime, top_ranking, bottom_ranking, data_epoch,
          directors, actors }
    else none
  | _ => none

/-- The dict comprehension of playtime.py line 103:
`{Path(moviedir): imdb_id for moviedir, imdb_id in cache["directories"].items()}`. -/
def readDirectories : List (String × Json) → Except PyError (List (String × String))
  | [] => .ok []
  | (k, v) :: rest =>
    match v with
    | .str s => (readDirectories rest).map (fun l => (k, s) :: l)
    | _ => .error .typeError

/-- The dict comprehension of playtime.py line 105:
`{imdb_id: Movie(**values) for imdb_id, values in cache["movies"].items()}`. -/
def readMovies : List (String × Json) → Except PyError (List (String × Movie))
  | [] => .ok []
  | (k, v) :: rest =>
    match movieFromJson v with
    | some m => (readMovies rest).map (fun l => (k, m) :: l)
    | none => .error .typeError

/-- Lines 103-105 of playtime.py applied to the value returned by
`json.loads` (or to the `{}` substituted after a decode error):
`cache["directories"]` is read and converted first, then
`cache["movies"]`; `.items()` on a non-dict raises (`AttributeError`). -/
def cache_read_json (j : Json) : Except PyError Cache := do
  let dj ← jsonDictGet j ("directories")
  let dirs ←
    match dj with
    | .obj kvs => readDirectories kvs
    | _ => .error .attributeError
  let mj ← jsonDictGet j ("movies")
  let movs ←
    match mj with
    | .obj kvs => readMovies kvs
    | _ => .error .attributeError
  pure { directories := dirs, movies := movs }

/-- The observable state of the persisted cache file. -/
inductive CacheFile where
  | absent
  | invalid
  | parsed (j : Json)

/-- `Cache.read_cache_file` (playtime.py lines 92-109).  An absent file
logs a warning and returns, leaving the in-memory cache `c` as it was.
When the file exists, `json.loads` either yields a document (`parsed j`)
or raises `json.decoder.JSONDecodeError`, which the source catches and
replaces with `cache = {}` — after which line 103 still subscripts
`cache["directories"]` on the empty dict. -/
def read_cache_file (file : CacheFile) (c : Cache) : Except PyError Cache :=
  match file with
  | .absent => .ok c
  | .invalid => cache_read_json (.obj [])
  | .parsed j => cache_read_json j

/-! ### Movie attributes and category extraction -/

/-- `Movie.data_age_days` (playtime.py lines 193-198): whole 24-hour
periods since the record was fetched, `math.floor((now - data_epoch) / 86400)`,
with `now` the current epoch time passed in explicitly. -/
def Movie.data_age_days (m : Movie) (now : Int) : Int :=
  (now - m.data_epoch).fdiv 86400

/-- Python `getattr(movie, name)`: the dataclass fields plus the
`@property` members reachable by name; any other name raises
`AttributeError`, modelled as `none`. -/
def Movie.getattr (m : Movie) (now : Int) (name : String) : Option PyVal :=
  if name = "imdb_id" then some (.str m.imdb_id)
  else if name = "title" then some (.str m.title)
  else if name = "primary_image" then some (.str m.primary_image)
  else if name = "year" then some (.int m.year)
  else if name = "language_codes" then some (.list m.language_codes)
  else if name = "genres" then some (.list m.genres)
  else if name = "rating" then some (.str m.rating)
  else if name = "vote_count" then some (.int m.vote_count)
  else if name = "runtime" then some (.int m.runtime)
  else if name = "top_ranking" then
    some (match m.top_ranking with | some n => .int n | none => .pynone)
  else if name = "bottom_ranking" then
    some (match m.bottom_ranking with | some n => .int n | none => .pynone)
  else if name = "data_epoch" then some (.int m.data_epoch)
  else if name = "directors" then
    some (match m.directors with | some xs => .list xs | none => .pynone)
  else if name = "actors" then
    some (match m.actors with | some xs => .list xs | none => .pynone)
  else if name = "cover_filename" then some (.str (m.imdb_id ++ ".jpg"))
  else if name = "imdb_url" then
    some (.str ("https://www.imdb.com/title/" ++ m.imdb_id ++ "/"))
  else if name = "short" then
    some (.str (m.title ++ " (" ++ toString m.year ++ ") [" ++
      String.intercalate (", ") m.genres ++ "]"))
  else if name = "dirname" then
    some (.str ((m.title ++ " (" ++ toString m.year ++ ")").replace ("/") ("_")))
  else if name = "data_age_days" then some (.int (m.data_age_days now))
  else none

/-- The attribute names `Movie.getattr` recognises. -/
def movieAttrNames : List String :=
  ["imdb_id", "title", "primary_image", "year", "language_codes", "genres",
   "rating", "vote_count", "runtime", "top_ranking", "bottom_ranking",
   "data_epoch", "directors", "actors", "cover_filename", "imdb_url",
   "short", "dirname", "data_age_days"]

/-- `Movie.get_category` (playtime.py lines 200-210): `runtime` is
bucketed via floor division into an interval label (`//` by zero raises
`ZeroDivisionError`); every other category is `getattr(self, category)`,
returned as-is when it is a list and as the one-element list
`[str(value)]` otherwise. -/
def Movie.get_category (m : Movie) (now : Int) (category : String)
    (runtime_interval : Int := 15) : Except PyError (List String) :=
  if category = "runtime" then
    if runtime_interval = 0 then .error .zeroDivisionError
    else
      let lower := m.runtime.fdiv runtime_interval
      .ok [toString (runtime_interval * lower) ++ "-" ++
        toString (runtime_interval * (lower + 1)) ++ " minutes"]
  else
    match m.getattr now category with
    | some v =>
      .ok
        (match v with
         | .list xs => xs
         | other => [other.toStr])
    | none => .error .attributeError

/-- `Cache.get_category_values` (playtime.py lines 132-137): fold over
the movies in the cache collecting every value each movie contributes;
an exception raised for any movie aborts the whole call.  (The source
accumulates a Python `set`; the model keeps the accumulated values as a
list, which is all the claims about emptiness and errors need.) -/
def Cache.get_category_values (c : Cache) (now : Int) (category : String)
    (runtime_interval : Int := 15) : Except PyError (List String) :=
  c.movies.foldl
    (fun acc e =>
      match acc with
      | .error err => .error err
      | .ok things =>
        match e.2.get_category now category runtime_interval with
        | .error err => .error err
        | .ok vs => .ok (things ++ vs))
    (.ok [])

/-! ### Textfile scanning for IMDB ids -/

/-- 1 MiB, the textfile size ceiling. -/
def MiB : Nat := 1024 * 1024

/-- What the filesystem reports for one path: whether it is a regular
file, its `stat().st_size`, and its raw bytes. -/
structure FileData where
  is_file : Bool
  size : Nat
  content : List Nat
deriving DecidableEq, Repr

/-- Decoding bytes as ISO-8859-1 (Latin-1): every byte is a code point. -/
def latin1Decode (bs : List Nat) : String :=
  String.mk (bs.map Char.ofNat)

/-- Whether a byte is a UTF-8 continuation byte `0x80..0xBF`. -/
def isContByte (b : Nat) : Bool :=
  128 ≤ b && b < 192

/-- Strict UTF-8 decoding of a byte list, as Python `bytes.decode("utf-8")`:
`none` models `UnicodeDecodeError` (truncated or stray sequences,
overlong encodings, surrogates and out-of-range code points all fail). -/
def utf8DecodeAux : List Nat → Option (List Char)
  | [] => some []
  | b :: rest =>
    if b < 128 then (utf8DecodeAux rest).map (fun cs => Char.ofNat b :: cs)
    else if b < 192 then none
    else if b < 224 then
      match rest with
      | b1 :: rest2 =>
        if isContByte b1 then
          let cp := (b - 192) * 64 + (b1 - 128)
          if cp < 128 then none
          else (utf8DecodeAux rest2).map (fun cs => Char.ofNat cp :: cs)
        else none
      | [] => none
    else if b < 240 then
      match rest with
      | b1 :: b2 :: rest2 =>
        if isContByte b1 && isContByte b2 then
          let cp := (b - 224) * 4096 + (b1 - 128) * 64 + (b2 - 128)
          if cp < 2048 then none
          else if 55296 ≤ cp && cp < 57344 then none
          else (utf8DecodeAux rest2).map (fun cs => Char.ofNat cp :: cs)
        else none
      | _ => none
    else if b < 248 then
      match rest with
      | b1 :: b2 :: b3 :: rest2 =>
        if isContByte b1 && isContByte b2 && isContByte b3 then
          let cp := (b - 240) * 262144 + (b1 - 128) * 4096 + (b2 - 128) * 64 + (b3 - 128)
          if cp < 65536 then none
          else if 1114111 < cp then none
          else (utf8DecodeAux rest2).map (fun cs => Char.ofNat cp :: cs)
        else none
      | _ => none
    else none

def utf8Decode (bs : List Nat) : Option String :=
  (utf8DecodeAux bs).map String.mk

/-- Reading a textfile's bytes (playtime.py lines 297-302): decode as
UTF-8, and on `UnicodeDecodeError` decode as ISO-8859-1 instead. -/
def decodeTextfile (bs : List Nat) : String :=
  match utf8Decode bs with
  | some s => s
  | none => latin1Decode bs

/-- `re.findall("(tt[0-9]{7,10}+)", text)`: scan left to right; at each
position a match is `tt` followed by 7 to 10 digits taken possessively
(as many as available, at most 10); matches do not overlap and the scan
resumes after each match.  The fuel argument bounds the number of scan
steps; each step consumes at least one character, so `cs.length` steps
always suffice. -/
def findallImdbAux : Nat → List Char → List String
  | 0, _ => []
  | _ + 1, [] => []
  | fuel + 1, 't' :: 't' :: rest =>
    let ds := (rest.takeWhile Char.isDigit).take 10
    if 7 ≤ ds.length then
      String.mk ('t' :: 't' :: ds) :: findallImdbAux fuel (rest.drop ds.length)
    else findallImdbAux fuel ('t' :: rest)
  | fuel + 1, _ :: rest => findallImdbAux fuel rest

/-- All matches of the IMDB id pattern in a decoded string. -/
def findallImdb (s : String) : List String :=
  findallImdbAux s.data.length s.data

/-! ### The environment of external collaborators -/

/-- One observable call to the IMDB metadata provider: a by-id fetch
(`cinemagoerng.web.get_title`) or a free-text search
(`imdb.Cinemagoer().search_movie`). -/
inductive PCall where
  | fetch (imdb_id : String)
  | search (title : String)
deriving DecidableEq, Repr

/-- The external collaborators of the program, as oracle functions:
`fetch` is the by-id metadata fetch (already folded through the
type checks of `Movie.create_from_imdb_id`, so `none` covers both lookup
failure and unsupported title types); `searchMovie` returns the ranked
movieID list of `search_movie` (`none` models `IMDbDataAccessError`);
`ptnParse` is `PTN.parse` restricted to the `title`/`year` entries;
`listdir` lists the names inside a directory, in filesystem iteration
order; `fs` resolves a path to its file data (`none`: no such path);
`userInput` models `input()` for interactive search confirmation. -/
structure Env where
  fetch : String → Option Movie
  searchMovie : String → Option (List String)
  ptnParse : String → Option String × Option Int
  listdir : String → List String
  fs : String → Option FileData
  userInput : String → String

/-- `Movie.create_from_imdb_id` (playtime.py lines 212-229): one network
fetch by id; the call is observable in the returned call list. -/
def create_from_imdb_id (env : Env) (imdb_id : String) : Option Movie × List PCall :=
  (env.fetch imdb_id, [PCall.fetch imdb_id])

/-- `Playtime.imdb_title_search` (playtime.py lines 310-323): one search
call; data-access errors and empty result lists both yield `None`,
otherwise the first result's movieID prefixed with `tt`. -/
def imdb_title_search (env : Env) (title : String) : Option String × List PCall :=
  (match env.searchMovie title with
   | none => none
   | some [] => none
   | some (r :: _) => some ("tt" ++ r),
   [PCall.search title])

/-- `pathlib` glob `*.{ext}` filename test: hidden names (leading dot)
are never matched, otherwise the name must end in `.{ext}`. -/
def globMatch (ext : String) (name : String) : Bool :=
  !(match name.data with
    | c :: _ => c = '.'
    | [] => false) &&
  ("." ++ ext).data.isSuffixOf name.data

/-- `moviedir.name`: the basename of a path string (the characters after
the last slash; the program's paths carry no trailing slash). -/
def pathBasename (p : String) : String :=
  String.mk (p.data.foldl (fun acc c => if c = '/' then [] else acc ++ [c]) [])

/-- `Playtime.find_textfiles` (playtime.py lines 269-288): for each
extension (default `txt`, `nfo`), glob the directory and keep the paths
that are regular files of at most 1 MiB (`stat().st_size > MiB` is
skipped); non-files are skipped. -/
def find_textfiles (env : Env) (moviedir : String)
    (extensions : List String := []) : List String :=
  let exts := if extensions = [] then ["txt", "nfo"] else extensions
  exts.flatMap (fun ext =>
    ((env.listdir moviedir).filter (globMatch ext)).filterMap (fun name =>
      let p := moviedir ++ "/" ++ name
      match env.fs p with
      | some fd => if fd.is_file && !(decide (MiB < fd.size)) then some p else none
      | none => none))

/-- `Playtime.find_imdb_id_in_textfiles` (playtime.py lines 290-308):
walk the candidate paths in order, skip paths that do not exist, read and
decode each file, and return the first regex match of the first file that
has any; `None` when no file matches. -/
def find_imdb_id_in_textfiles (env : Env) : List String → Option String
  | [] => none
  | p :: rest =>
    match env.fs p with
    | none => find_imdb_id_in_textfiles env rest
    | some fd =>
      match findallImdb (decodeTextfile fd.content) with
      | [] => find_imdb_id_in_textfiles env rest
      | m :: _ => some m

/-! ### Identification and cache update -/

/-- `Playtime.identify_movie` (playtime.py lines 325-378).  When called
without an id: search the directory's textfiles first (a found id is
fetched directly and returned), then parse the directory basename with
PTN and search IMDB with `"title year"` or `"title"` (optionally
overridden interactively); a search hit becomes the id.  With an id in
hand, line 378 returns `self.cache.movies.get(imdb_id, Movie.create_from_imdb_id(imdb_id))`
— Python evaluates the default argument eagerly, so the by-id fetch call
happens even when the id is already cached. -/
def identify_movie (env : Env) (c : Cache) (moviedir : String) (imdb_id : String)
    (skip_imdb_search : Bool) (skip_textfiles : Bool) (search_confirmation : Bool) :
    Option Movie × List PCall :=
  if imdb_id = "" then
    match
      (if skip_textfiles then none
       else find_imdb_id_in_textfiles env (find_textfiles env moviedir)) with
    | some textfile_imdb_id => create_from_imdb_id env textfile_imdb_id
    | none =>
      if !skip_imdb_search then
        match (env.ptnParse (pathBasename moviedir)).1 with
        | none => (none, [])
        | some title =>
          let prompt :=
            match (env.ptnParse (pathBasename moviedir)).2 with
            | some year => title ++ " " ++ toString year
            | none => title
          let prompt :=
            if search_confirmation then
              let entered := env.userInput prompt
              if entered = "" then prompt else entered
            else prompt
          let sres := imdb_title_search env prompt
          match sres.1 with
          | none => (none, sres.2)
          | some search_imdb_id =>
            let f := create_from_imdb_id env search_imdb_id
            ((match dlookup search_imdb_id c.movies with
              | some m => some m
              | none => f.1),
             sres.2 ++ f.2)
      else (none, [])
  else
    let f := create_from_imdb_id env imdb_id
    ((match dlookup imdb_id c.movies with
      | some m => some m
      | none => f.1),
     f.2)

/-- `Playtime.update_cache_directory` (playtime.py lines 466-516).  For a
directory already in the cache, rescan `imdb.txt` only: a matching or
missing hint id means "already identified" (return `True`, no change, no
provider traffic); a differing hint id triggers re-identification with
that id.  A new directory is identified from scratch.  A successful
identification records `directories[moviedir] = movie.imdb_id` and adds
the movie record only when its id is not cached yet.  Returns
(success, new cache, provider calls). -/
def update_cache_directory (env : Env) (c : Cache) (moviedir : String)
    (search_confirmation : Bool) (skip_textfiles : Bool) (skip_imdb_search : Bool) :
    Bool × Cache × List PCall :=
  let identify_and_record := fun (tid : String) =>
    let r := identify_movie env c moviedir tid skip_imdb_search skip_textfiles search_confirmation
    match r.1 with
    | none => (false, c, r.2)
    | some movie =>
      (true,
       { directories := dinsert moviedir movie.imdb_id c.directories,
         movies :=
           match dlookup movie.imdb_id c.movies with
           | some _ => c.movies
           | none => dinsert movie.imdb_id movie c.movies },
       r.2)
  match dlookup moviedir c.directories with
  | some cached_id =>
    match find_imdb_id_in_textfiles env [moviedir ++ "/imdb.txt"] with
    | some textfile_imdb_id =>
      if textfile_imdb_id = cached_id then (true, c, [])
      else identify_and_record textfile_imdb_id
    | none => (true, c, [])
  | none => identify_and_record ""

/-- The loop body of `Playtime.update_cache_directories` (playtime.py
lines 447-457): process one movie directory, threading the cache and
collecting the provider traffic.  (The source also collects failed
directories for a warning, which has no further effect.) -/
def update_dirs_step (env : Env) (search_confirmation : Bool) (skip_textfiles : Bool)
    (skip_imdb_search : Bool) (acc : Cache × List PCall) (d : String) : Cache × List PCall :=
  let r := update_cache_directory env acc.1 d search_confirmation skip_textfiles skip_imdb_search
  (r.2.1, acc.2 ++ r.2.2)

/-- `Playtime.update_cache_directories` (playtime.py lines 430-464)
restricted to its observable effect: process a list of movie directories
in order, threading the cache and concatenating the provider traffic.
(The source derives the list by iterating the subdirectories of every
basedir — cached parents plus `new_basedirs`; the claims quantify over
that derived list, which is held fixed between runs.) -/
def update_cache_directories (env : Env) (c : Cache) (moviedirs : List String)
    (search_confirmation : Bool) (skip_textfiles : Bool) (skip_imdb_search : Bool) :
    Cache × List PCall :=
  moviedirs.foldl (update_dirs_step env search_confirmation skip_textfiles skip_imdb_search) (c, [])

/-- The loop body of `Playtime.update_cache_moviedata` (playtime.py
lines 419-428): re-fetch one id (the call is always made), replacing the
record in place on success and leaving the cache untouched on failure. -/
def refetch_step (env : Env) (acc : Cache × List PCall) (imdb_id : String) :
    Cache × List PCall :=
  match env.fetch imdb_id with
  | none => (acc.1, acc.2 ++ [PCall.fetch imdb_id])
  | some updated_movie =>
    ({ acc.1 with movies := dinsert imdb_id updated_movie acc.1.movies },
     acc.2 ++ [PCall.fetch imdb_id])

/-- `Playtime.update_cache_moviedata` (playtime.py lines 406-428): first
collect `needs_updates`, the ids whose record age meets or exceeds
`update_age_days`; then re-fetch each collected id, replacing the record
wholesale on success and keeping the old record (with a warning) on
failure. -/
def update_cache_moviedata (env : Env) (now : Int) (c : Cache)
    (update_age_days : Int) : Cache × List PCall :=
  let needs_updates :=
    (c.movies.filter (fun e => update_age_days ≤ e.2.data_age_days now)).map Prod.fst
  needs_updates.foldl (refetch_step env) (c, [])

/-! ### Concrete fixtures used by the closed counterexample and witness
theorems below -/

/-- The bytes of an ASCII string (the textfile fixtures are ASCII, where
the file bytes and the code points coincide). -/
def asciiBytes (s : String) : List Nat :=
  s.data.map Char.toNat

/-- A concrete well-formed movie record with the given id. -/
def sampleMovie (imdb_id : String) : Movie :=
  { imdb_id := imdb_id, title := "Sample", primary_image := "http://img",
    year := 1990, language_codes := ["en"], genres := ["Action"],
    rating := "7.1", vote_count := 100, runtime := 100,
    top_ranking := none, bottom_ranking := some 5, data_epoch := 1000,
    directors := some ["D"], actors := none }

/-- A second concrete record for the same kind of id, distinguishable
from `sampleMovie` by its title and fetch timestamp. -/
def altMovie (imdb_id : String) : Movie :=
  { imdb_id := imdb_id, title := "Alt", primary_image := "http://img2",
    year := 1991, language_codes := ["en"], genres := ["Drama"],
    rating := "6.0", vote_count := 7, runtime := 95,
    top_ranking := some 3, bottom_ranking := none, data_epoch := 2000,
    directors := none, actors := some ["A"] }

/-- An environment whose directory `b/d1` holds two hint files: `a.txt`
naming `tt0000001` (globbed first) and `imdb.txt` naming `tt0000002`. -/
def envX : Env :=
  { fetch := fun imdb_id =>
      if imdb_id = "tt0000001" then some (sampleMovie "tt0000001")
      else if imdb_id = "tt0000002" then some (sampleMovie "tt0000002")
      else none,
    searchMovie := fun _ => none,
    ptnParse := fun _ => (none, none),
    listdir := fun p => if p = "b/d1" then ["a.txt", "imdb.txt"] else [],
    fs := fun p =>
      if p = "b/d1/a.txt" then
        some { is_file := true, size := 9, content := asciiBytes "tt0000001" }
      else if p = "b/d1/imdb.txt" then
        some { is_file := true, size := 9, content := asciiBytes "tt0000002" }
      else none,
    userInput := fun s => s }

/-- One identification pass of `envX` over the single directory `b/d1`. -/
def passX (c : Cache) : Cache × List PCall :=
  update_cache_directories envX c ["b/d1"] false false false

/-- An environment whose directory `f/d1` holds a single hint file
`imdb.txt` naming `tt0000001`, whose fetch returns `altMovie`. -/
def envF : Env :=
  { fetch := fun imdb_id =>
      if imdb_id = "tt0000001" then some (altMovie "tt0000001") else none,
    searchMovie := fun _ => none,
    ptnParse := fun _ => (none, none),
    listdir := fun p => if p = "f/d1" then ["imdb.txt"] else [],
    fs := fun p =>
      if p = "f/d1/imdb.txt" then
        some { is_file := true, size := 9, content := asciiBytes "tt0000001" }
      else none,
    userInput := fun s => s }

/-- An environment for the hint-authority witness: `w/d1/imdb.txt` names
`tt0000001` and `w/d3/imdb.txt` names `tt0000002`; `w/d2` has no hint
file at all. -/
def envW : Env :=
  { fetch := fun imdb_id =>
      if imdb_id = "tt0000002" then some (sampleMovie "tt0000002") else none,
    searchMovie := fun _ => none,
    ptnParse := fun _ => (none, none),
    listdir := fun _ => [],
    fs := fun p =>
      if p = "w/d1/imdb.txt" then
        some { is_file := true, size := 9, content := asciiBytes "tt0000001" }
      else if p = "w/d3/imdb.txt" then
        some { is_file := true, size := 9, content := asciiBytes "tt0000002" }
      else none,
    userInput := fun s => s }

/-- A cache fixture for `envW`: all three directories are mapped;
`tt0000001` is the only record. -/
def cacheW : Cache :=
  { directories := [("w/d1", "tt0000001"), ("w/d2", "tt0000001"), ("w/d3", "tt0000001")],
    movies := [("tt0000001", sampleMovie "tt0000001")] }

/-- An environment for the textfile-search witness: under `t/d`,
`big.txt` is over the size ceiling, `sub.txt` is not a regular file,
`no.txt` has no id, and `hit.txt` holds two ids. -/
def envT : Env :=
  { fetch := fun _ => none,
    searchMovie := fun _ => none,
    ptnParse := fun _ => (none, none),
    listdir := fun p => if p = "t/d" then ["big.txt", "sub.txt", "no.txt", "hit.txt"] else [],
    fs := fun p =>
      if p = "t/d/big.txt" then
        some { is_file := true, size := 1048577, content := asciiBytes "tt9999999" }
      else if p = "t/d/sub.txt" then
        some { is_file := false, size := 0, content := [] }
      else if p = "t/d/no.txt" then
        some { is_file := true, size := 12, content := asciiBytes "nothing here" }
      else if p = "t/d/hit.txt" then
        some { is_file := true, size := 30, content := asciiBytes "x tt1234567 and tt7654321 y" }
      else none,
    userInput := fun s => s }

/-- A cache fixture for the refresh witness: `tt0000001` was fetched at
epoch 1000 (stale at `now = 864000`), `tt0000009` at epoch 864000
(fresh). -/
def cacheM : Cache :=
  { directories := [("p", "tt0000001")],
    movies := [("tt0000001", sampleMovie "tt0000001"),
               ("tt0000009", { sampleMovie "tt0000009" with data_epoch := 864000 })] }

/-! ## Theorems -/

/-! ### Generic dict lemmas -/

theorem foldl_derase_eq_filter {α β : Type} [DecidableEq α] (ks : List α) (l : List (α × β)) :
    ks.foldl (fun acc k => derase k acc) l = l.filter (fun e => !(ks.contains e.1)) := by
  induction ks generalizing l with
  | nil => simp [List.filter_eq_self]
  | cons k ks ih =>
    simp only [List.foldl_cons]
    rw [ih, derase, List.filter_filter]
    apply List.filter_congr
    intro e _
    by_cases h : e.1 = k <;> simp [h, List.contains_cons]

theorem dlookup_dinsert_self {α β : Type} [DecidableEq α] (k : α) (v : β) (l : List (α × β)) :
    dlookup k (dinsert k v l) = some v := by
  induction l with
  | nil => simp [dlookup, dinsert]
  | cons e rest ih =>
    by_cases h : e.1 = k
    · simp [dlookup, dinsert, h]
    · simp [dlookup, dinsert, h, ih]

theorem dlookup_dinsert_ne {α β : Type} [DecidableEq α] {k k' : α} (v : β) (l : List (α × β))
    (h : k ≠ k') : dlookup k (dinsert k' v l) = dlookup k l := by
  induction l with
  | nil => simp [dlookup, dinsert, Ne.symm h]
  | cons e rest ih =>
    by_cases he : e.1 = k'
    · have hek : e.1 ≠ k := by rw [he]; exact Ne.symm h
      simp [dlookup, dinsert, he, Ne.symm h, hek]
    · by_cases hk : e.1 = k <;> simp [dlookup, dinsert, he, hk, h, ih]

theorem dinsert_map_fst_of_mem {α β : Type} [DecidableEq α] {k : α} (v : β)
    {l : List (α × β)} (h : k ∈ l.map Prod.fst) :
    (dinsert k v l).map Prod.fst = l.map Prod.fst := by
  induction l with
  | nil => simp at h
  | cons e rest ih =>
    by_cases he : e.1 = k
    · simp [dinsert, he]
    · simp only [List.map_cons, List.mem_cons] at h
      rcases h with h | h
    
      · exact absurd h.symm he
      · simp [dinsert, he, ih h]

/-! ### C1: the clean pass -/

/-- C1, counterexample: a cache with a single directory mapping
`p1 → tt0000001` and the record for `tt0000001`, on a filesystem where
`p1` no longer exists.  The clean pass removes the directory mapping but
retains the record — falsifying the claim that a record whose sole
referencer vanished is removed in the same pass (the orphan check runs
against the not-yet-cleaned directories dict). -/
theorem clean_cache_sole_referencer_cex :
    (clean_cache (fun _ => false)
      { directories := [("p1", "tt0000001")],
        movies := [("tt0000001", sampleMovie "tt0000001")] }).directories = []
  ∧ (clean_cache (fun _ => false)
      { directories := [("p1", "tt0000001")],
        movies := [("tt0000001", sampleMovie "tt0000001")] }).movies =
      [("tt0000001", sampleMovie "tt0000001")] := by
  exact ⟨rfl, rfl⟩

/-- C1, amended: the clean pass removes exactly the directory mappings
whose path no longer exists, and removes exactly the MovieRecords not
referenced by any directory mapping of the **pre-clean** cache; in
particular a record referenced by a surviving mapping is retained, but a
record whose only referencers are removed in this same pass is retained
as well (it is collected only by a later pass). -/
theorem clean_cache_characterization (fsExists : String → Bool) (c : Cache) :
    (clean_cache fsExists c).directories = c.directories.filter (fun e => fsExists e.1)
  ∧ (clean_cache fsExists c).movies =
      c.movies.filter (fun e => (dvalues c.directories).contains e.1)
  ∧ ∀ e ∈ c.movies,
      (∃ d ∈ c.directories, fsExists d.1 = true ∧ d.2 = e.1) →
      e ∈ (clean_cache fsExists c).movies := by
  have hdirs : (clean_cache fsExists c).directories =
      c.directories.filter (fun e => fsExists e.1) := by
    unfold clean_cache
    simp only [foldl_derase_eq_filter]
    apply List.filter_congr
    intro e he
    have hmem : e.1 ∈ c.directories.map Prod.fst := List.mem_map_of_mem Prod.fst he
    by_cases hf : fsExists e.1 <;>
      simp [List.contains, List.elem_iff, List.mem_filter, hmem, hf]
  have hmovs : (clean_cache fsExists c).movies =
      c.movies.filter (fun e => (dvalues c.directories).contains e.1) := by
    unfold clean_cache
    simp only [foldl_derase_eq_filter]
    apply List.filter_congr
    intro e he
    have hmem : e.1 ∈ c.movies.map Prod.fst := List.mem_map_of_mem Prod.fst he
    by_cases hf : (dvalues c.directories).contains e.1 <;>
      simp [List.contains, List.elem_iff, List.mem_filter, hmem, hf]
  refine ⟨hdirs, hmovs, ?_⟩
  intro e he ⟨d, hd, hfs, hde⟩
  rw [hmovs]
  rw [List.mem_filter]
  refine ⟨he, ?_⟩
  have : e.1 ∈ dvalues c.directories := by
    rw [← hde]
    exact List.mem_map_of_mem Prod.snd hd
  simpa [List.contains, List.elem_iff] using this

/-- C1, witness for the amended theorem: `tt0000001` is referenced by the
surviving mapping `p2` (its other referencer `p1` vanished), so the clean
pass keeps the record while dropping `p1`. -/
theorem clean_cache_characterization_witness :
    ("tt0000001", sampleMovie "tt0000001") ∈
      (clean_cache (fun p => p = "p2")
        { directories := [("p1", "tt0000001"), ("p2", "tt0000001")],
          movies := [("tt0000001", sampleMovie "tt0000001")] }).movies := by
  apply (clean_cache_characterization (fun p => p = "p2")
    { directories := [("p1", "tt0000001"), ("p2", "tt0000001")],
      movies := [("tt0000001", sampleMovie "tt0000001")] }).2.2
    ("tt0000001", sampleMovie "tt0000001") (by decide)
  exact ⟨("p2", "tt0000001"), by decide, by decide, rfl⟩

/-! ### C2: loading the cache file -/

/-- C2: an absent cache file loads as the empty cache without error, but
a present-yet-unparseable cache file does **not**: the source catches the
JSON decode error and substitutes the empty dict, after which
`cache["directories"]` raises an uncaught `KeyError` (and no warning is
logged on that path) — the code contradicts the documented intent of
recovering with an empty cache. -/
theorem read_cache_file_corrupt_raises :
    read_cache_file .absent { directories := [], movies := [] } =
      .ok { directories := [], movies := [] }
  ∧ read_cache_file .invalid { directories := [], movies := [] } =
      .error .keyError := by
  exact ⟨rfl, rfl⟩

/-! ### C3: category extraction for unconfigured categories -/

theorem getattr_eq_none {m : Movie} {now : Int} {name : String}
    (h : name ∉ movieAttrNames) : m.getattr now name = none := by
  simp only [movieAttrNames, List.mem_cons, List.not_mem_nil, or_false, not_or] at h
  obtain ⟨h1, h2, h3, h4, h5, h6, h7, h8, h9, h10, h11, h12, h13, h14, h15, h16,
    h17, h18, h19⟩ := h
  simp [Movie.getattr, h1, h2, h3, h4, h5, h6, h7, h8, h9, h10, h11, h12, h13,
    h14, h15, h16, h17, h18, h19]

theorem gcv_foldl_error (now : Int) (category : String) (ri : Int)
    (l : List (String × Movie)) (err : PyError) :
    l.foldl
      (fun acc e =>
        match acc with
        | .error err2 => .error err2
        | .ok things =>
          match e.2.get_category now category ri with
          | .error err2 => .error err2
          | .ok vs => .ok (things ++ vs))
      (Except.error err) = .error err := by
  induction l with
  | nil => rfl
  | cons e rest ih => simpa using ih

/-- C3, counterexample: over a cache holding one movie, extracting the
values of the unconfigured category `flavor` raises `AttributeError`
(from `getattr`) instead of returning an empty set. -/
theorem get_category_values_unknown_category_cex :
    Cache.get_category_values
      { directories := [], movies := [("tt0000001", sampleMovie "tt0000001")] }
      0 "flavor" 15 = .error .attributeError := by
  rfl

/-- C3, amended: for a category with no configured extractor (not a
movie attribute and not `runtime`), extraction returns the empty set
without error exactly when the cache holds no movies; as soon as one
movie is cached, the `getattr` lookup raises `AttributeError` — unknown
categories are not a silent empty-set fallback on non-empty caches. -/
theorem get_category_values_unknown_category (c : Cache) (now : Int) (category : String)
    (ri : Int) (hname : category ∉ movieAttrNames) (hrt : category ≠ "runtime") :
    (c.movies = [] → c.get_category_values now category ri = .ok [])
  ∧ (c.movies ≠ [] → c.get_category_values now category ri = .error .attributeError) := by
  constructor
  · intro h
    unfold Cache.get_category_values
    rw [h]
    rfl
  · intro h
    obtain ⟨e, rest, hrw⟩ := List.exists_cons_of_ne_nil h
    unfold Cache.get_category_values
    rw [hrw]
    have hcat : e.2.get_category now category ri = .error .attributeError := by
      unfold Movie.get_category
      rw [if_neg hrt, getattr_eq_none hname]
    simp only [List.foldl_cons, hcat]
    exact gcv_foldl_error now category ri rest .attributeError

/-- C3, witness for the amended theorem at the category `spam`: empty
set on the empty cache, `AttributeError` on a one-movie cache. -/
theorem get_category_values_unknown_category_witness :
    Cache.get_category_values { directories := [], movies := [] } 0 "spam" 15 = .ok []
  ∧ Cache.get_category_values
      { directories := [], movies := [("tt0000002", altMovie "tt0000002")] }
      0 "spam" 15 = .error .attributeError := by
  constructor
  · exact (get_category_values_unknown_category
      { directories := [], movies := [] } 0 "spam" 15 (by decide) (by decide)).1 rfl
  · exact (get_category_values_unknown_category
      { directories := [], movies := [("tt0000002", altMovie "tt0000002")] }
      0 "spam" 15 (by decide) (by decide)).2 (by decide)

/-! ### C8: the runtime bucket label -/

/-- C8: for a record with runtime `r ≥ 0` and interval width `w > 0`,
the `runtime` category extractor returns exactly the one label
`"L-U minutes"` with `L = w * (r // w)` and `U = L + w`, and
`L ≤ r < U`. -/
theorem get_category_runtime_bucket (m : Movie) (now ri : Int)
    (hr : 0 ≤ m.runtime) (hri : 0 < ri) :
    m.get_category now "runtime" ri =
      .ok [toString (ri * (m.runtime.fdiv ri)) ++ "-" ++
        toString (ri * (m.runtime.fdiv ri) + ri) ++ " minutes"]
  ∧ ri * (m.runtime.fdiv ri) ≤ m.runtime
  ∧ m.runtime < ri * (m.runtime.fdiv ri) + ri := by
  refine ⟨?_, ?_, ?_⟩
  · unfold Movie.get_category
    rw [if_pos rfl, if_neg hri.ne']
    have h4 : ri * (m.runtime.fdiv ri + 1) = ri * (m.runtime.fdiv ri) + ri := by ring
    simp only [h4]
  · rw [Int.fdiv_eq_ediv _ hri.le]
    have h1 := Int.ediv_add_emod m.runtime ri
    have h2 := Int.emod_nonneg m.runtime hri.ne'
    omega
  · rw [Int.fdiv_eq_ediv _ hri.le]
    have h1 := Int.ediv_add_emod m.runtime ri
    have h3 := Int.emod_lt_of_pos m.runtime hri
    omega

/-- C8, witness: `sampleMovie` has runtime 100; with the default width
15 the extractor yields the bucket `"90-105 minutes"` and
`90 ≤ 100 < 105`. -/
theorem get_category_runtime_bucket_witness :
    (sampleMovie "tt0000001").get_category 0 "runtime" 15 = .ok ["90-105 minutes"]
  ∧ (90 : Int) ≤ 100 ∧ (100 : Int) < 105 := by
  have h := get_category_runtime_bucket (sampleMovie "tt0000001") 0 15
    (by decide) (by decide)
  refine ⟨?_, by decide, by decide⟩
  have heq : (sampleMovie "tt0000001").get_category 0 "runtime" 15 =
      .ok [toString ((15 : Int) * Int.fdiv 100 15) ++ "-" ++
        toString ((15 : Int) * Int.fdiv 100 15 + 15) ++ " minutes"] := h.1
  rw [heq]
  rfl

/-! ### C4: hint-file authority for already-cached directories -/

theorem findallImdbAux_ne_empty (fuel : Nat) (cs : List Char) :
    ∀ m ∈ findallImdbAux fuel cs, m ≠ "" := by
  induction fuel, cs using findallImdbAux.induct with
  | case1 cs => simp [findallImdbAux]
  | case2 fuel => simp [findallImdbAux]
  | case3 fuel rest ds hlen ih =>
    intro m hm
    rw [findallImdbAux] at hm
    rw [if_pos hlen] at hm
    rcases List.mem_cons.mp hm with h | h
    · subst h
      intro hc
      simpa using congrArg String.data hc
    · exact ih m h
  | case4 fuel rest ds hlen ih =>
    intro m hm
    rw [findallImdbAux] at hm
    rw [if_neg hlen] at hm
    exact ih m hm
  | case5 fuel c rest hne ih =>
    intro m hm
    rw [findallImdbAux] at hm
    exact ih m hm
    exact hne

/-- An id coming out of the textfile search is a regex match, hence a
non-empty (truthy) string: `identify_movie` therefore takes its direct
fetch path when handed such an id. -/
theorem find_imdb_id_ne_empty (env : Env) (ps : List String) (t : String)
    (h : find_imdb_id_in_textfiles env ps = some t) : t ≠ "" := by
  induction ps with
  | nil => simp [find_imdb_id_in_textfiles] at h
  | cons p rest ih =>
    cases hfs : env.fs p with
    | none =>
      simp only [find_imdb_id_in_textfiles, hfs] at h
      exact ih h
    | some fd =>
      simp only [find_imdb_id_in_textfiles, hfs] at h
      cases hfa : findallImdb (decodeTextfile fd.content) with
      | nil =>
        simp only [hfa] at h
        exact ih h
      | cons m ms =>
        simp only [hfa] at h
        have hmt : m = t := by injection h
        subst hmt
        have hmem : m ∈ findallImdb (decodeTextfile fd.content) := by
          rw [hfa]; exact List.mem_cons_self m ms
        exact findallImdbAux_ne_empty _ _ m hmem

/-- C4: for a directory already mapped in the cache — if the `imdb.txt`
hint names the cached id, or no hint id is found, processing returns
`True` with the cache unchanged and no provider call; if the hint names a
different id `t`, re-identification runs: exactly one by-id provider
fetch for `t` is made and the directory's mapping is updated to `t`
(under a provider/cache that key their records by the requested id, and
provided the record for `t` is obtainable from cache or provider). -/
theorem update_cache_directory_hint_authority (env : Env) (c : Cache) (moviedir : String)
    (sc st si : Bool) (cached_id : String)
    (hmap : dlookup moviedir c.directories = some cached_id) :
    (find_imdb_id_in_textfiles env [moviedir ++ "/imdb.txt"] = some cached_id →
      update_cache_directory env c moviedir sc st si = (true, c, []))
  ∧ (find_imdb_id_in_textfiles env [moviedir ++ "/imdb.txt"] = none →
      update_cache_directory env c moviedir sc st si = (true, c, []))
  ∧ ∀ t, find_imdb_id_in_textfiles env [moviedir ++ "/imdb.txt"] = some t →
      t ≠ cached_id →
      (∀ m, env.fetch t = some m → m.imdb_id = t) →
      (∀ m, dlookup t c.movies = some m → m.imdb_id = t) →
      ((dlookup t c.movies).isSome = true ∨ (env.fetch t).isSome = true) →
      ((update_cache_directory env c moviedir sc st si).1 = true
       ∧ (update_cache_directory env c moviedir sc st si).2.1.directories =
           dinsert moviedir t c.directories
       ∧ (update_cache_directory env c moviedir sc st si).2.2 = [PCall.fetch t]) := by
  refine ⟨?_, ?_, ?_⟩
  · intro hhint
    simp [update_cache_directory, hmap, hhint]
  · intro hhint
    simp [update_cache_directory, hmap, hhint]
  · intro t hhint hne hkf hkc hsome
    have ht : t ≠ "" := find_imdb_id_ne_empty env [moviedir ++ "/imdb.txt"] t hhint
    cases hc : dlookup t c.movies with
    | some m =>
      have hmid : m.imdb_id = t := hkc m hc
      simp [update_cache_directory, hmap, hhint, hne, identify_movie, ht,
        create_from_imdb_id, hc, hmid]
    | none =>
      rcases hsome with hcs | hfs
      · rw [hc] at hcs
        simp at hcs
      · obtain ⟨mf, hmf⟩ := Option.isSome_iff_exists.mp hfs
        have hmid : mf.imdb_id = t := hkf mf hmf
        simp [update_cache_directory, hmap, hhint, hne, identify_movie, ht,
          create_from_imdb_id, hc, hmf, hmid]

/-- C4, witness over `envW`/`cacheW`: `w/d1` (hint matches) and `w/d2`
(no hint) are left untouched with no provider traffic; `w/d3` (hint
`tt0000002` differs from cached `tt0000001`) is re-identified — one fetch
call and the mapping moves to `tt0000002`. -/
theorem update_cache_directory_hint_authority_witness :
    update_cache_directory envW cacheW "w/d1" false false false = (true, cacheW, [])
  ∧ update_cache_directory envW cacheW "w/d2" false false false = (true, cacheW, [])
  ∧ (update_cache_directory envW cacheW "w/d3" false false false).2.1.directories =
      dinsert "w/d3" "tt0000002" cacheW.directories
  ∧ (update_cache_directory envW cacheW "w/d3" false false false).2.2 =
      [PCall.fetch "tt0000002"] := by
  have h1 := (update_cache_directory_hint_authority envW cacheW "w/d1" false false false
    "tt0000001" (by decide)).1 (by decide)
  have h2 := (update_cache_directory_hint_authority envW cacheW "w/d2" false false false
    "tt0000001" (by decide)).2.1 (by decide)
  have h3 := (update_cache_directory_hint_authority envW cacheW "w/d3" false false false
    "tt0000001" (by decide)).2.2 "tt0000002" (by decide) (by decide)
    (by
      intro m hm
      have : m = sampleMovie "tt0000002" := by
        have he : envW.fetch "tt0000002" = some (sampleMovie "tt0000002") := by decide
        rw [he] at hm
        injection hm
        rename_i hh
        exact hh.symm
      rw [this]
      rfl)
    (by
      intro m hm
      have he : dlookup "tt0000002" cacheW.movies = (none : Option Movie) := by decide
      rw [he] at hm
      exact Option.noConfusion hm)
    (Or.inr (by decide))
  exact ⟨h1, h2, h3.2.1, h3.2.2⟩

/-! ### C10: recording an identification for an already-known id -/

/-- C10: whenever processing a directory reaches a successful
identification (either a brand-new directory, or a re-identification
forced by a differing hint) whose movie carries an id already present in
the movies dict, the recording step leaves the movies dict exactly as it
was — only the directories dict gains or updates the one key for this
directory. -/
theorem update_cache_directory_frame (env : Env) (c : Cache) (moviedir : String)
    (sc st si : Bool) :
    (∀ movie calls,
      dlookup moviedir c.directories = none →
      identify_movie env c moviedir "" si st sc = (some movie, calls) →
      (dlookup movie.imdb_id c.movies).isSome = true →
      update_cache_directory env c moviedir sc st si =
        (true,
         { directories := dinsert moviedir movie.imdb_id c.directories,
           movies := c.movies }, calls))
  ∧ (∀ cached_id t movie calls,
      dlookup moviedir c.directories = some cached_id →
      find_imdb_id_in_textfiles env [moviedir ++ "/imdb.txt"] = some t →
      t ≠ cached_id →
      identify_movie env c moviedir t si st sc = (some movie, calls) →
      (dlookup movie.imdb_id c.movies).isSome = true →
      update_cache_directory env c moviedir sc st si =
        (true,
         { directories := dinsert moviedir movie.imdb_id c.directories,
           movies := c.movies }, calls)) := by
  constructor
  · intro movie calls hmap hident hsome
    obtain ⟨m0, hm0⟩ := Option.isSome_iff_exists.mp hsome
    simp [update_cache_directory, hmap, hident, hm0]
  · intro cached_id t movie calls hmap hhint hne hident hsome
    obtain ⟨m0, hm0⟩ := Option.isSome_iff_exists.mp hsome
    simp [update_cache_directory, hmap, hhint, hne, hident, hm0]

/-- C10, witness: identifying the new directory `f/d1` resolves (via its
hint file) to `tt0000001`, already cached as `sampleMovie`; the freshly
fetched `altMovie` is discarded, the cached record and the rest of the
movies dict survive untouched, and only the directory mapping is added. -/
theorem update_cache_directory_frame_witness :
    update_cache_directory envF
      { directories := [], movies := [("tt0000001", sampleMovie "tt0000001")] }
      "f/d1" false false false =
      (true,
       { directories := [("f/d1", "tt0000001")],
         movies := [("tt0000001", sampleMovie "tt0000001")] },
       [PCall.fetch "tt0000001"]) := by
  have h := (update_cache_directory_frame envF
    { directories := [], movies := [("tt0000001", sampleMovie "tt0000001")] }
    "f/d1" false false false).1 (altMovie "tt0000001") [PCall.fetch "tt0000001"]
    (by decide) (by decide) (by decide)
  rw [h]
  rfl

/-! ### C5: idempotence of the identification pass -/

/-- C5, counterexample: in `envX`, directory `b/d1` holds `a.txt` naming
`tt0000001` (globbed first) and `imdb.txt` naming `tt0000002`.  The
first pass identifies the directory as `tt0000001` via `a.txt`; the
second pass — directory set and textfiles unchanged — rescans only
`imdb.txt`, sees the differing id, re-identifies, changes the cache and
makes a provider call.  So two runs over an unchanged directory set are
not idempotent and the second pass is not network-silent. -/
theorem update_pass_not_idempotent_cex :
    (passX (passX { directories := [], movies := [] }).1).1 ≠
      (passX { directories := [], movies := [] }).1
  ∧ (passX (passX { directories := [], movies := [] }).1).2 ≠ ([] : List PCall) := by
  exact ⟨by decide, by decide⟩

/-- A directory that is already mapped and whose `imdb.txt` hint is
absent or equal to the mapped id is a no-op for
`update_cache_directory`: success, unchanged cache, no provider call. -/
theorem update_cache_directory_known_noop (env : Env) (c : Cache) (d : String)
    (sc st si : Bool) (imdb_id : String)
    (hmap : dlookup d c.directories = some imdb_id)
    (hhint : find_imdb_id_in_textfiles env [d ++ "/imdb.txt"] = none ∨
             find_imdb_id_in_textfiles env [d ++ "/imdb.txt"] = some imdb_id) :
    update_cache_directory env c d sc st si = (true, c, []) := by
  rcases hhint with h | h <;> simp [update_cache_directory, hmap, h]

theorem update_dirs_fold_noop (env : Env) (sc st si : Bool) (c : Cache)
    (dirs : List String)
    (h : ∀ d ∈ dirs, ∃ imdb_id, dlookup d c.directories = some imdb_id ∧
        (find_imdb_id_in_textfiles env [d ++ "/imdb.txt"] = none ∨
         find_imdb_id_in_textfiles env [d ++ "/imdb.txt"] = some imdb_id)) :
    ∀ cs : List PCall, dirs.foldl (update_dirs_step env sc st si) (c, cs) = (c, cs) := by
  induction dirs with
  | nil => intro cs; rfl
  | cons d rest ih =>
    intro cs
    obtain ⟨imdb_id, hmap, hhint⟩ := h d (List.mem_cons_self d rest)
    have hstep : update_dirs_step env sc st si (c, cs) d = (c, cs) := by
      simp [update_dirs_step,
        update_cache_directory_known_noop env c d sc st si imdb_id hmap hhint]
    rw [List.foldl_cons, hstep]
    exact ih (fun d2 hd2 => h d2 (List.mem_cons_of_mem d hd2)) cs

/-- C5, amended: two runs of the identification pass over an unchanged
directory set coincide **provided** that after the first pass every
directory in the set is mapped and its `imdb.txt` hint scan yields no id
or the mapped id.  Then the second pass returns the first pass's cache
unchanged and makes no provider calls.  (Without that proviso the claim
fails: a hint in another textfile that disagrees with `imdb.txt` makes
the second pass re-identify, and a directory the first pass failed to
identify repeats its provider search — see the counterexample.) -/
theorem update_pass_idempotent_of_consistent (env : Env) (c : Cache)
    (moviedirs : List String) (sc st si : Bool)
    (h : ∀ d ∈ moviedirs, ∃ imdb_id,
        dlookup d (update_cache_directories env c moviedirs sc st si).1.directories =
          some imdb_id ∧
        (find_imdb_id_in_textfiles env [d ++ "/imdb.txt"] = none ∨
         find_imdb_id_in_textfiles env [d ++ "/imdb.txt"] = some imdb_id)) :
    update_cache_directories env (update_cache_directories env c moviedirs sc st si).1
      moviedirs sc st si =
      ((update_cache_directories env c moviedirs sc st si).1, []) :=
  update_dirs_fold_noop env sc st si
    (update_cache_directories env c moviedirs sc st si).1 moviedirs h []

/-- C5, witness for the amended theorem: in `envF` the single directory
`f/d1` is identified by the first pass via its `imdb.txt` (so the hint
agrees with the cached id afterwards), and the second pass is a no-op
with no provider calls. -/
theorem update_pass_idempotent_witness :
    update_cache_directories envF
      (update_cache_directories envF { directories := [], movies := [] }
        ["f/d1"] false false false).1
      ["f/d1"] false false false =
      ((update_cache_directories envF { directories := [], movies := [] }
        ["f/d1"] false false false).1, []) := by
  apply update_pass_idempotent_of_consistent
  intro d hd
  have hd1 : d = "f/d1" := by simpa using hd
  subst hd1
  exact ⟨"tt0000001", by decide, Or.inr (by decide)⟩

/-! ### C6: the metadata refresh pass -/

theorem refetch_fold_directories (env : Env) (ids : List String) :
    ∀ (c : Cache) (cs : List PCall),
    ((ids.foldl (refetch_step env) (c, cs)).1).directories = c.directories := by
  induction ids with
  | nil => intro c cs; rfl
  | cons imdb_id rest ih =>
    intro c cs
    rw [List.foldl_cons]
    cases hf : env.fetch imdb_id with
    | none =>
      have hstep : refetch_step env (c, cs) imdb_id = (c, cs ++ [PCall.fetch imdb_id]) := by
        simp [refetch_step, hf]
      rw [hstep]
      exact ih c (cs ++ [PCall.fetch imdb_id])
    | some m =>
      have hstep : refetch_step env (c, cs) imdb_id =
          ({ c with movies := dinsert imdb_id m c.movies }, cs ++ [PCall.fetch imdb_id]) := by
        simp [refetch_step, hf]
      rw [hstep]
      exact ih { c with movies := dinsert imdb_id m c.movies } (cs ++ [PCall.fetch imdb_id])

theorem refetch_fold_calls (env : Env) (ids : List String) :
    ∀ (c : Cache) (cs : List PCall),
    (ids.foldl (refetch_step env) (c, cs)).2 = cs ++ ids.map PCall.fetch := by
  induction ids with
  | nil => intro c cs; simp
  | cons imdb_id rest ih =>
    intro c cs
    rw [List.foldl_cons]
    cases hf : env.fetch imdb_id with
    | none =>
      have hstep : refetch_step env (c, cs) imdb_id = (c, cs ++ [PCall.fetch imdb_id]) := by
        simp [refetch_step, hf]
      rw [hstep, ih]
      simp
    | some m =>
      have hstep : refetch_step env (c, cs) imdb_id =
          ({ c with movies := dinsert imdb_id m c.movies }, cs ++ [PCall.fetch imdb_id]) := by
        simp [refetch_step, hf]
      rw [hstep, ih]
      simp

theorem refetch_fold_lookup (env : Env) (ids : List String) :
    ∀ (c : Cache) (cs : List PCall) (k : String),
    dlookup k ((ids.foldl (refetch_step env) (c, cs)).1).movies =
      if k ∈ ids then
        (match env.fetch k with
         | some m => some m
         | none => dlookup k c.movies)
      else dlookup k c.movies := by
  induction ids with
  | nil => intro c cs k; simp
  | cons imdb_id rest ih =>
    intro c cs k
    rw [List.foldl_cons]
    cases hf : env.fetch imdb_id with
    | none =>
      have hstep : refetch_step env (c, cs) imdb_id = (c, cs ++ [PCall.fetch imdb_id]) := by
        simp [refetch_step, hf]
      rw [hstep, ih]
      by_cases hk : k = imdb_id
      · subst hk
        by_cases hmem : k ∈ rest <;> simp [hmem, hf]
      · simp [List.mem_cons, hk]
    | some m =>
      have hstep : refetch_step env (c, cs) imdb_id =
          ({ c with movies := dinsert imdb_id m c.movies }, cs ++ [PCall.fetch imdb_id]) := by
        simp [refetch_step, hf]
      rw [hstep, ih]
      by_cases hk : k = imdb_id
      · subst hk
        by_cases hmem : k ∈ rest <;>
          simp [hmem, hf, dlookup_dinsert_self]
      · simp [List.mem_cons, hk, dlookup_dinsert_ne m c.movies hk]

theorem refetch_fold_keys (env : Env) (ids : List String) :
    ∀ (c : Cache) (cs : List PCall),
    (∀ imdb_id ∈ ids, imdb_id ∈ c.movies.map Prod.fst) →
    (((ids.foldl (refetch_step env) (c, cs)).1).movies).map Prod.fst =
      c.movies.map Prod.fst := by
  induction ids with
  | nil => intro c cs _; rfl
  | cons imdb_id rest ih =>
    intro c cs h
    rw [List.foldl_cons]
    cases hf : env.fetch imdb_id with
    | none =>
      have hstep : refetch_step env (c, cs) imdb_id = (c, cs ++ [PCall.fetch imdb_id]) := by
        simp [refetch_step, hf]
      rw [hstep]
      exact ih c _ (fun i hi => h i (List.mem_cons_of_mem imdb_id hi))
    | some m =>
      have hstep : refetch_step env (c, cs) imdb_id =
          ({ c with movies := dinsert imdb_id m c.movies }, cs ++ [PCall.fetch imdb_id]) := by
        simp [refetch_step, hf]
      rw [hstep]
      have hkeys : (dinsert imdb_id m c.movies).map Prod.fst = c.movies.map Prod.fst :=
        dinsert_map_fst_of_mem m (h imdb_id (List.mem_cons_self imdb_id rest))
      have := ih { c with movies := dinsert imdb_id m c.movies } (cs ++ [PCall.fetch imdb_id])
        (fun i hi => by
          simpa [hkeys] using h i (List.mem_cons_of_mem imdb_id hi))
      simpa [hkeys] using this

theorem mem_map_fst_filter_iff {α β : Type} [DecidableEq α] (l : List (α × β))
    (p : α × β → Bool) (k : α) (m : β)
    (hnd : (l.map Prod.fst).Nodup) (hl : dlookup k l = some m) :
    (k ∈ (l.filter p).map Prod.fst) ↔ p (k, m) = true := by
  induction l with
  | nil => simp [dlookup] at hl
  | cons e rest ih =>
    simp only [List.map_cons, List.nodup_cons] at hnd
    obtain ⟨hne, hnd2⟩ := hnd
    by_cases hek : e.1 = k
    · rw [dlookup, if_pos hek] at hl
      have hm : e.2 = m := by injection hl
      have hekm : e = (k, m) := by
        obtain ⟨e1, e2⟩ := e
        simp only at hek hm
        rw [hek, hm]
      subst hekm
      cases hp : p (k, m) with
      | true => simp [List.filter_cons, hp]
      | false =>
        rw [List.filter_cons, if_neg (by simp [hp])]
        constructor
        · intro hk
          obtain ⟨x, hx, hxk⟩ := List.mem_map.mp hk
          have hx2 : x ∈ rest := List.mem_of_mem_filter hx
          have hkr : k ∈ rest.map Prod.fst := by
            rw [← hxk]
            exact List.mem_map_of_mem Prod.fst hx2
          exact absurd hkr hne
        · intro hfalse
          simp [hp] at hfalse
    · rw [dlookup, if_neg hek] at hl
      have hiff := ih hnd2 hl
      cases hp : p e with
      | true =>
        rw [List.filter_cons, if_pos hp]
        simp only [List.map_cons, List.mem_cons]
        rw [← hiff]
        constructor
        · intro hor
          rcases hor with h1 | h1
          · exact absurd h1.symm hek
          · exact h1
        · exact fun hmem => Or.inr hmem
      | false =>
        rw [List.filter_cons, if_neg (by simp [hp])]
        exact hiff

/-- C6: the refresh pass leaves the directory mappings untouched,
re-fetches by id **exactly** the records whose age in whole days meets or
exceeds the threshold (in cache order), keeps the key set of the movies
dict unchanged, and — per record — replaces a stale record wholesale when
its re-fetch succeeds while retaining it unchanged when the re-fetch
fails; records under the age threshold are never touched. -/
theorem update_cache_moviedata_spec (env : Env) (now : Int) (c : Cache)
    (update_age_days : Int) (hnd : (c.movies.map Prod.fst).Nodup) :
    (update_cache_moviedata env now c update_age_days).1.directories = c.directories
  ∧ (update_cache_moviedata env now c update_age_days).2 =
      ((c.movies.filter (fun e => update_age_days ≤ e.2.data_age_days now)).map
        Prod.fst).map PCall.fetch
  ∧ ((update_cache_moviedata env now c update_age_days).1.movies).map Prod.fst =
      c.movies.map Prod.fst
  ∧ ∀ imdb_id m, dlookup imdb_id c.movies = some m →
      dlookup imdb_id (update_cache_moviedata env now c update_age_days).1.movies =
        some (if update_age_days ≤ m.data_age_days now
          then (env.fetch imdb_id).getD m else m) := by
  have hdef : update_cache_moviedata env now c update_age_days =
      ((c.movies.filter (fun e => update_age_days ≤ e.2.data_age_days now)).map
        Prod.fst).foldl (refetch_step env) (c, []) := rfl
  have hsub : ∀ i ∈ (c.movies.filter
      (fun e => update_age_days ≤ e.2.data_age_days now)).map Prod.fst,
      i ∈ c.movies.map Prod.fst := by
    intro i hi
    obtain ⟨x, hx, hxi⟩ := List.mem_map.mp hi
    exact hxi ▸ List.mem_map_of_mem Prod.fst (List.mem_of_mem_filter hx)
  refine ⟨?_, ?_, ?_, ?_⟩
  · rw [hdef]
    exact refetch_fold_directories env _ c []
  · rw [hdef]
    rw [refetch_fold_calls env _ c []]
    simp
  · rw [hdef]
    exact refetch_fold_keys env _ c [] hsub
  · intro imdb_id m hm
    rw [hdef]
    rw [refetch_fold_lookup env _ c [] imdb_id]
    have hiff := mem_map_fst_filter_iff c.movies
      (fun e => update_age_days ≤ e.2.data_age_days now) imdb_id m hnd hm
    by_cases hstale : update_age_days ≤ m.data_age_days now
    · have hmem : imdb_id ∈ (c.movies.filter
          (fun e => update_age_days ≤ e.2.data_age_days now)).map Prod.fst := by
        rw [hiff]
        simpa using hstale
      rw [if_pos hmem, if_pos hstale]
      cases hf : env.fetch imdb_id with
      | none => simp [hf, hm]
      | some m2 => simp [hf]
    · have hmem : imdb_id ∉ (c.movies.filter
          (fun e => update_age_days ≤ e.2.data_age_days now)).map Prod.fst := by
        rw [hiff]
        simpa using hstale
      rw [if_neg hmem, if_neg hstale, hm]

/-- C6, witness over `cacheM` at `now = 864000` with threshold 7 days:
the 9-day-old `tt0000001` is the only record re-fetched (and is replaced
wholesale by the provider's `altMovie`), the fresh `tt0000009` is
retained unchanged, and the directory mapping survives. -/
theorem update_cache_moviedata_spec_witness :
    (update_cache_moviedata envF 864000 cacheM 7).1.directories = [("p", "tt0000001")]
  ∧ (update_cache_moviedata envF 864000 cacheM 7).2 = [PCall.fetch "tt0000001"]
  ∧ dlookup "tt0000001" (update_cache_moviedata envF 864000 cacheM 7).1.movies =
      some (altMovie "tt0000001")
  ∧ dlookup "tt0000009" (update_cache_moviedata envF 864000 cacheM 7).1.movies =
      some { sampleMovie "tt0000009" with data_epoch := 864000 } := by
  have h := update_cache_moviedata_spec envF 864000 cacheM 7 (by decide)
  refine ⟨h.1, ?_, ?_, ?_⟩
  · rw [h.2.1]
    rfl
  · have h4 := h.2.2.2 "tt0000001" (sampleMovie "tt0000001") (by decide)
    rw [h4]
    rfl
  · have h4 := h.2.2.2 "tt0000009"
      { sampleMovie "tt0000009" with data_epoch := 864000 } (by decide)
    rw [h4]
    rfl

/-! ### C7: the hint-file search -/

theorem find_imdb_id_first_file_aux (env : Env) (f : String) (rest : List String)
    (fd : FileData) (m : String) (ms : List String)
    (hf : env.fs f = some fd)
    (hm : findallImdb (decodeTextfile fd.content) = m :: ms) :
    ∀ pre, (∀ p ∈ pre, env.fs p = none ∨
      ∃ fd0, env.fs p = some fd0 ∧ findallImdb (decodeTextfile fd0.content) = []) →
    find_imdb_id_in_textfiles env (pre ++ f :: rest) = some m := by
  intro pre
  induction pre with
  | nil =>
    intro _
    simp only [List.nil_append, find_imdb_id_in_textfiles, hf, hm]
  | cons q pre2 ih =>
    intro hpre
    rcases hpre q (List.mem_cons_self q pre2) with hq | ⟨fd0, hq, hq2⟩
    · simp only [List.cons_append, find_imdb_id_in_textfiles, hq]
      exact ih (fun p hp => hpre p (List.mem_cons_of_mem q hp))
    · simp only [List.cons_append, find_imdb_id_in_textfiles, hq, hq2]
      exact ih (fun p hp => hpre p (List.mem_cons_of_mem q hp))

/-- C7: (i) every candidate returned by the textfile glob is an existing
regular file of at most 1 MiB — larger files are excluded as
non-matches; (ii) the id returned by the search over a candidate list is
the first regex match of the first file, in list order, that has any
match (missing files and match-free files are skipped); (iii) bytes that
fail strict UTF-8 decoding are decoded as Latin-1 instead of erroring,
and valid UTF-8 is decoded as such. -/
theorem find_imdb_id_first_match_spec (env : Env) :
    (∀ moviedir exts p, p ∈ find_textfiles env moviedir exts →
      ∃ fd, env.fs p = some fd ∧ fd.is_file = true ∧ fd.size ≤ MiB)
  ∧ (∀ pre f rest fd m ms,
      (∀ p ∈ pre, env.fs p = none ∨
        ∃ fd0, env.fs p = some fd0 ∧ findallImdb (decodeTextfile fd0.content) = []) →
      env.fs f = some fd →
      findallImdb (decodeTextfile fd.content) = m :: ms →
      find_imdb_id_in_textfiles env (pre ++ f :: rest) = some m)
  ∧ (∀ bs, utf8Decode bs = none → decodeTextfile bs = latin1Decode bs)
  ∧ (∀ bs s, utf8Decode bs = some s → decodeTextfile bs = s) := by
  refine ⟨?_, ?_, ?_, ?_⟩
  · intro moviedir exts p hp
    simp only [find_textfiles, List.mem_flatMap, List.mem_filterMap,
      List.mem_filter] at hp
    obtain ⟨ext, _, name, _, hname⟩ := hp
    cases hfs : env.fs (moviedir ++ "/" ++ name) with
    | none =>
      simp only [hfs] at hname
      cases hname
    | some fd =>
      simp only [hfs] at hname
      by_cases hcond : fd.is_file && !(decide (MiB < fd.size))
      · rw [if_pos hcond] at hname
        have hp2 : moviedir ++ "/" ++ name = p := by injection hname
        obtain ⟨h1, h2⟩ := Bool.and_eq_true_iff.mp hcond
        refine ⟨fd, hp2 ▸ hfs, h1, ?_⟩
        simp only [Bool.not_eq_true', decide_eq_false_iff_not, not_lt] at h2
        exact h2
      · rw [if_neg hcond] at hname
        cases hname
  · intro pre f rest fd m ms hpre hf hm
    exact find_imdb_id_first_file_aux env f rest fd m ms hf hm pre hpre
  · intro bs h
    simp [decodeTextfile, h]
  · intro bs s h
    simp [decodeTextfile, h]

/-- C7, witness over `envT`: the oversized `big.txt` and the non-file
`sub.txt` are excluded from the candidates while `no.txt` qualifies; the
search over a missing file, a match-free file and a two-id file returns
the first id of the first matching file; and an invalid UTF-8 byte
(0xFF) falls back to Latin-1 decoding. -/
theorem find_imdb_id_first_match_witness :
    (∃ fd, envT.fs "t/d/no.txt" = some fd ∧ fd.is_file = true ∧ fd.size ≤ MiB)
  ∧ find_imdb_id_in_textfiles envT ["t/d/missing.txt", "t/d/no.txt", "t/d/hit.txt"] =
      some "tt1234567"
  ∧ decodeTextfile [255] = latin1Decode [255] := by
  refine ⟨(find_imdb_id_first_match_spec envT).1 "t/d" [] "t/d/no.txt" (by decide),
    ?_, (find_imdb_id_first_match_spec envT).2.2.1 [255] rfl⟩
  exact (find_imdb_id_first_match_spec envT).2.1
    ["t/d/missing.txt", "t/d/no.txt"] "t/d/hit.txt" []
    { is_file := true, size := 30, content := asciiBytes "x tt1234567 and tt7654321 y" }
    "tt1234567" ["tt7654321"]
    (by
      intro p hp
      rcases List.mem_cons.mp hp with h1 | h1
      · subst h1
        exact Or.inl (by decide)
      · have h2 : p = "t/d/no.txt" := by simpa using h1
        subst h2
        exact Or.inr
          ⟨{ is_file := true, size := 12, content := asciiBytes "nothing here" },
           by decide, by decide⟩)
    (by decide) (by decide)

/-! ### C9: cache-file round trip -/

theorem jsonAsStrListAux_map (xs : List String) :
    jsonAsStrListAux (xs.map Json.str) = some xs := by
  induction xs with
  | nil => rfl
  | cons x rest ih => simp [jsonAsStrListAux, ih]

theorem movieFromJson_movieToJson (m : Movie) :
    movieFromJson (movieToJson m) = some m := by
  obtain ⟨i, t, pi, y, lc, g, r, vc, rt, tr, br, de, di, ac⟩ := m
  cases tr <;> cases br <;> cases di <;> cases ac <;>
    simp [movieFromJson, movieToJson, movieFieldNames, dlookup, jsonAsStr,
      jsonAsInt, jsonAsOptInt, jsonAsStrList, jsonAsOptStrList,
      jsonAsStrListAux_map]

theorem readDirectories_map (l : List (String × String)) :
    readDirectories (l.map (fun e => (e.1, Json.str e.2))) = .ok l := by
  induction l with
  | nil => rfl
  | cons e rest ih => simp [readDirectories, ih, Except.map]

theorem readMovies_map (l : List (String × Movie)) :
    readMovies (l.map (fun e => (e.1, movieToJson e.2))) = .ok l := by
  induction l with
  | nil => rfl
  | cons e rest ih => simp [readMovies, movieFromJson_movieToJson, ih, Except.map]

/-- C9: writing the cache file and reading it back yields the same
directories map and the same movies map (Nodup reflects that Python dict
keys are unique; json.dumps/json.loads is the external collaborator that
is inverse on documents). -/
theorem cache_roundtrip (c : Cache) (start : Cache)
    (hd : (c.directories.map Prod.fst).Nodup)
    (hm : (c.movies.map Prod.fst).Nodup) :
    read_cache_file (.parsed (cache_write_json c)) start = .ok c := by
  show cache_read_json (cache_write_json c) = .ok c
  simp [cache_read_json, cache_write_json, jsonDictGet, dlookup,
    readDirectories_map, readMovies_map, bind, Except.bind, Functor.map, Except.map,
    pure, Except.pure]

/-- C9, witness: a one-directory, one-movie cache round-trips through
the serialized document. -/
theorem cache_roundtrip_witness :
    read_cache_file
      (.parsed (cache_write_json
        { directories := [("p1", "tt0000001")],
          movies := [("tt0000001", sampleMovie "tt0000001")] }))
      { directories := [], movies := [] } =
      .ok { directories := [("p1", "tt0000001")],
            movies := [("tt0000001", sampleMovie "tt0000001")] } :=
  cache_roundtrip
    { directories := [("p1", "tt0000001")],
      movies := [("tt0000001", sampleMovie "tt0000001")] }
    { directories := [], movies := [] } (by decide) (by decide)
